import Mathlib

/-!
Verification of the `androidtv_custom` Home Assistant integration
(`custom_components/androidtv_custom`): a shallow embedding of the
connection-resilience / state-polling core of `media_player.py`, of the
setup glue in `__init__.py` and of the state-detection-rule handling in
`config_flow.py`, together with theorems settling the specification
claims about that code.

Python dictionaries are modelled as insertion-ordered association lists
with unique keys (`dget` / `dinsert` / `dupdate`), exceptions as an
explicit `CallResult` outcome, and calls into the external `androidtv`
ADB library (connect, telemetry poll) as outcome parameters supplied to
the embedded functions.
-/

namespace AndroidTVCustom

/-! ### Python dict model (insertion-ordered association lists) -/

/-- Python dict lookup, `d.get(k)` / `d[k]`. -/
def dget {α : Type} (d : List (String × α)) (k : String) : Option α :=
  (d.find? (fun p => p.1 == k)).map (fun p => p.2)

/-- Python dict assignment `d[k] = v`: replace in place if `k` is present
(keeping its position, as Python dicts do), otherwise append. -/
def dinsert {α : Type} : List (String × α) → String → α → List (String × α)
  | [], k, v => [(k, v)]
  | p :: rest, k, v =>
    if p.1 == k then (k, v) :: rest else p :: dinsert rest k v

/-- Python dict `d.update(other)`. -/
def dupdate {α : Type} (d other : List (String × α)) : List (String × α) :=
  other.foldl (fun acc p => dinsert acc p.1 p.2) d

/-- Removal in the style of `d.pop(k, None)` (used only by option-flow deletion). -/
def dpop {α : Type} (d : List (String × α)) (k : String) : List (String × α) :=
  d.filter (fun p => p.1 != k)

/-! ### States (`ANDROIDTV_STATES`, media_player.py lines 87-93) -/

/-- The Home Assistant media-player states that `ANDROIDTV_STATES` maps to. -/
inductive HAState where
  | off
  | idle
  | standby
  | playing
  | paused
deriving DecidableEq, Repr

/-- Translation table from the raw `AndroidTV` / `FireTV` reported state to
the HA state (`ANDROIDTV_STATES` in media_player.py). -/
def ANDROIDTV_STATES : List (String × HAState) :=
  [("off", .off), ("idle", .idle), ("standby", .standby),
   ("playing", .playing), ("paused", .paused)]

/-- Lookup `ANDROIDTV_STATES.get(state)`. -/
def statesGet (raw : String) : Option HAState :=
  dget ANDROIDTV_STATES raw

/-! ### Exceptions and call outcomes -/

/-- The exception classes distinguished by `adb_decorator`:
`LockNotAcquiredException`; one of the entity's expected ADB exceptions
(`self.exceptions`, the tuple chosen in `ADBDevice.__init__` lines 250-265
depending on `aftv.adb_server_ip`); or any other exception. -/
inductive Exc where
  | lockNotAcquired
  | adb
  | other
deriving DecidableEq, Repr

/-- Outcome of an awaited call into the ADB library: a returned value or a
raised exception. -/
inductive CallResult (α : Type) where
  | ok (a : α)
  | raise (e : Exc)
deriving DecidableEq, Repr

/-- Outcome of a decorated (wrapped) method: a returned value (possibly
`None`) or a re-raised exception. -/
inductive WrapResult (α : Type) where
  | value (v : Option α)
  | reraised (e : Exc)
deriving DecidableEq, Repr

/-! ### Entity state (`ADBDevice` attributes used by the embedded code) -/

/-- The mutable entity attributes read or written by `adb_decorator`,
`async_update` and `_process_config`.  `connectionOpen` models whether the
underlying `aftv` ADB transport is open (`aftv.adb_close()` closes it,
a successful `aftv.adb_connect()` opens it). -/
structure EntState where
  available : Bool                       -- `_attr_available`
  connectionOpen : Bool                  -- the `aftv` ADB connection
  failedConnectCount : Nat               -- `_failed_connect_count`
  haState : Option HAState               -- `_attr_state`
  appId : Option String                  -- `_attr_app_id`
  source : Option String                 -- `_attr_source`
  appName : Option String                -- `_attr_app_name`
  sourceList : Option (List String)      -- `_attr_source_list`
  isVolumeMuted : Option Bool            -- `_attr_is_volume_muted`
  volumeLevel : Option Float             -- `_attr_volume_level`
  hdmiInput : Option String              -- extra_state_attributes[hdmi_input]

/-- The wrapper `adb_decorator(override_available)` (media_player.py lines 154-206)
applied to a wrapped coroutine `func`, as a state transformer: if the
entity is unavailable and `override_available` is not set, return `None`
without calling `func`; otherwise run `func` and dispatch on its outcome
exactly as the `try`/`except` chain does. -/
def adbDecorator {α : Type} (overrideAvailable : Bool)
    (func : EntState → EntState × CallResult α) (s : EntState) :
    EntState × WrapResult α :=
  if !s.available && !overrideAvailable then
    (s, .value none)
  else
    match func s with
    | (s', .ok a) => (s', .value (some a))
    | (s', .raise .lockNotAcquired) =>
        -- ADB lock not acquired: skip this command
        (s', .value none)
    | (s', .raise .adb) =>
        -- one of `self.exceptions`: `await self.aftv.adb_close()`,
        -- `self._attr_available = False`, `return None`
        ({ s' with connectionOpen := false, available := false }, .value none)
    | (s', .raise .other) =>
        -- unforeseen exception: close the connection, mark unavailable, re-raise
        ({ s' with connectionOpen := false, available := false }, .reraised .other)

/-! ### Telemetry tuples returned by `aftv.update(self._get_sources)` -/

/-- The 7-tuple returned by `AndroidTV.update`: `(state, current_app,
running_apps, awake, is_volume_muted, volume_level, hdmi_input)` (the
fourth component is discarded by `async_update`). -/
structure AndroidTelemetry where
  state : String
  currentApp : Option String
  runningApps : Option (List String)
  awake : Bool
  isVolumeMuted : Option Bool
  volumeLevel : Option Float
  hdmiInput : Option String

/-- The 4-tuple returned by `FireTV.update`: `(state, current_app,
running_apps, hdmi_input)`. -/
structure FireTelemetry where
  state : String
  currentApp : Option String
  runningApps : Option (List String)
  hdmiInput : Option String

/-- Python truthiness of `running_apps` (`None` and `[]` are falsy). -/
def appsTruthy (apps : Option (List String)) : Bool :=
  match apps with
  | some (_ :: _) => true
  | _ => false

/-- Lookup `self._app_id_to_name.get(self._attr_app_id, self._attr_app_id)` where
the key may be `None` (in which case Python's `dict.get` returns the
default, itself `None`). -/
def appGetOpt (d : List (String × String)) (k : Option String) : Option String :=
  match k with
  | some a => some ((dget d a).getD a)
  | none => none

/-- The `sources` list comprehension followed by the truthiness filter:
`sources = [app_id_to_name.get(app_id, app_id if not exclude else None)
for app_id in running_apps]`, `[source for source in sources if source]`. -/
def sourceListOf (d : List (String × String)) (exclude : Bool)
    (runningApps : List String) : List String :=
  ((runningApps.map (fun a =>
      match dget d a with
      | some n => some n
      | none => if exclude then none else some a)).filterMap id).filter
    (fun n => n != "")

/-- Trace of the observable library calls made by one `async_update` run:
whether `aftv.adb_connect` was invoked (and with which `log_errors`
argument), and whether `aftv.update` was invoked. -/
@[ext]
structure UpdTrace where
  connectAttempted : Option Bool
  polled : Bool
deriving DecidableEq, Repr

/-- Tail of `AndroidTVDevice.async_update` from the `if not self.available: return`
check onwards (media_player.py lines 480-511): poll the device, translate
the raw state through `ANDROIDTV_STATES`, and rebuild the source list.
`att` is the connect-attempt trace accumulated by the reconnect block. -/
def androidtvPollPhase (poll : CallResult AndroidTelemetry) (exclude : Bool)
    (appIdToName : List (String × String)) (s : EntState) (att : Option Bool) :
    EntState × UpdTrace × CallResult Unit :=
  if !s.available then
    (s, ⟨att, false⟩, .ok ())
  else
    match poll with
    | .raise e => (s, ⟨att, true⟩, .raise e)
    | .ok t =>
      let s2 : EntState :=
        { s with appId := t.currentApp, isVolumeMuted := t.isVolumeMuted,
                 volumeLevel := t.volumeLevel, hdmiInput := t.hdmiInput,
                 haState := statesGet t.state }
      let s3 : EntState :=
        if (statesGet t.state).isNone then { s2 with available := false } else s2
      let s4 : EntState :=
        if appsTruthy t.runningApps then
          { s3 with source := appGetOpt appIdToName t.currentApp,
                    appName := appGetOpt appIdToName t.currentApp,
                    sourceList :=
                      some (sourceListOf appIdToName exclude (t.runningApps.getD [])) }
        else { s3 with sourceList := none }
      (s4, ⟨att, true⟩, .ok ())

/-- The body of `AndroidTVDevice.async_update` (media_player.py lines
469-511), before `adb_decorator(override_available=True)` is applied.
`connect` is the outcome of `aftv.adb_connect`, `poll` the outcome of
`aftv.update`. -/
def androidtvUpdateInner (connect : CallResult Bool)
    (poll : CallResult AndroidTelemetry) (exclude : Bool)
    (appIdToName : List (String × String)) (s : EntState) :
    EntState × UpdTrace × CallResult Unit :=
  -- `if not self._attr_available:` reconnect block (lines 472-478)
  let step1 : EntState × Option Bool × Option Exc :=
    if !s.available then
      match connect with
      | .ok true =>
          ({ s with failedConnectCount := 0, available := true,
                    connectionOpen := true },
           some (s.failedConnectCount == 0), none)
      | .ok false =>
          ({ s with failedConnectCount := s.failedConnectCount + 1 },
           some (s.failedConnectCount == 0), none)
      | .raise e => (s, some (s.failedConnectCount == 0), some e)
    else (s, none, none)
  match step1 with
  | (s1, att, some e) => (s1, ⟨att, false⟩, .raise e)
  | (s1, att, none) => androidtvPollPhase poll exclude appIdToName s1 att

/-- Tail of `FireTVDevice.async_update` from the `if not self.available: return`
check onwards (media_player.py lines 569-597). -/
def firetvPollPhase (poll : CallResult FireTelemetry) (exclude : Bool)
    (appIdToName : List (String × String)) (s : EntState) (att : Option Bool) :
    EntState × UpdTrace × CallResult Unit :=
  if !s.available then
    (s, ⟨att, false⟩, .ok ())
  else
    match poll with
    | .raise e => (s, ⟨att, true⟩, .raise e)
    | .ok t =>
      let s2 : EntState :=
        { s with appId := t.currentApp, hdmiInput := t.hdmiInput,
                 haState := statesGet t.state }
      let s3 : EntState :=
        if (statesGet t.state).isNone then { s2 with available := false } else s2
      let s4 : EntState :=
        if appsTruthy t.runningApps then
          { s3 with source := appGetOpt appIdToName t.currentApp,
                    sourceList :=
                      some (sourceListOf appIdToName exclude (t.runningApps.getD [])) }
        else { s3 with sourceList := none }
      (s4, ⟨att, true⟩, .ok ())

/-- The body of `FireTVDevice.async_update` (media_player.py lines
558-597), before `adb_decorator(override_available=True)` is applied. -/
def firetvUpdateInner (connect : CallResult Bool)
    (poll : CallResult FireTelemetry) (exclude : Bool)
    (appIdToName : List (String × String)) (s : EntState) :
    EntState × UpdTrace × CallResult Unit :=
  -- `if not self._attr_available:` reconnect block (lines 561-567)
  let step1 : EntState × Option Bool × Option Exc :=
    if !s.available then
      match connect with
      | .ok true =>
          ({ s with failedConnectCount := 0, available := true,
                    connectionOpen := true },
           some (s.failedConnectCount == 0), none)
      | .ok false =>
          ({ s with failedConnectCount := s.failedConnectCount + 1 },
           some (s.failedConnectCount == 0), none)
      | .raise e => (s, some (s.failedConnectCount == 0), some e)
    else (s, none, none)
  match step1 with
  | (s1, att, some e) => (s1, ⟨att, false⟩, .raise e)
  | (s1, att, none) => firetvPollPhase poll exclude appIdToName s1 att

/-- Turn the inner update result into the `CallResult` shape expected by
`adbDecorator` (the trace rides along on a normal return). -/
def settleTrace (tr : UpdTrace) : CallResult Unit → CallResult UpdTrace
  | .ok _ => .ok tr
  | .raise e => .raise e

/-- Method `AndroidTVDevice.async_update` as actually exposed: the inner body
wrapped by `adb_decorator(override_available=True)`. -/
def androidtvAsyncUpdate (connect : CallResult Bool)
    (poll : CallResult AndroidTelemetry) (exclude : Bool)
    (appIdToName : List (String × String)) (s : EntState) :
    EntState × WrapResult UpdTrace :=
  adbDecorator true
    (fun st =>
      let r := androidtvUpdateInner connect poll exclude appIdToName st
      (r.1, settleTrace r.2.1 r.2.2)) s

/-- Method `FireTVDevice.async_update` as actually exposed: the inner body wrapped
by `adb_decorator(override_available=True)`. -/
def firetvAsyncUpdate (connect : CallResult Bool)
    (poll : CallResult FireTelemetry) (exclude : Bool)
    (appIdToName : List (String × String)) (s : EntState) :
    EntState × WrapResult UpdTrace :=
  adbDecorator true
    (fun st =>
      let r := firetvUpdateInner connect poll exclude appIdToName st
      (r.1, settleTrace r.2.1 r.2.2)) s

/-! ### `ADBDevice._process_config` app maps (media_player.py lines 276-291) -/

/-- One step of the dict comprehension `{value: key for key, value in
self._app_id_to_name.items() if value}`.  Configured names are strings
(the options flow stores `""` for an unnamed app), so Python truthiness
of a name is `name != ""`. -/
def compIns (acc : List (String × String)) (p : String × String) :
    List (String × String) :=
  if p.2 != "" then dinsert acc p.2 p.1 else acc

/-- One step of the override loop `for key, value in apps.items():
self._app_name_to_id[value] = key`. -/
def loopIns (acc : List (String × String)) (p : String × String) :
    List (String × String) :=
  dinsert acc p.2 p.1

/-- The app-map part of `_process_config`: starting from the built-in
default list `APPS` (a dict app-id → app-name from the `androidtv`
library, here a parameter) and the configured `apps` option, build
`(self._app_id_to_name, self._app_name_to_id)`:

    self._app_id_to_name = APPS.copy()
    self._app_id_to_name.update(apps)
    self._app_name_to_id = {value: key
        for key, value in self._app_id_to_name.items() if value}
    for key, value in apps.items():
        self._app_name_to_id[value] = key
-/
def process_config_apps (APPS apps : List (String × String)) :
    List (String × String) × List (String × String) :=
  let appIdToName := dupdate APPS apps
  let appNameToId := appIdToName.foldl compIns []
  let appNameToId := apps.foldl loopIns appNameToId
  (appIdToName, appNameToId)

/-! ### `ADBDevice.async_select_source` (media_player.py lines 377-389) -/

/-- The `source` argument: a string, or a value of some other type
(`isinstance(source, str)` fails). -/
inductive SourceArg where
  | str (v : String)
  | notStr

/-- The device call issued by `async_select_source`. -/
inductive DeviceCmd where
  | launchApp (appId : String)
  | stopApp (appId : String)
deriving DecidableEq, Repr

/-- Python string `v.startswith(pat)` (character-list view). -/
def pyStartswith (v pat : String) : Bool :=
  pyIsPre pat.data v.data
where
  pyIsPre : List Char → List Char → Bool
    | [], _ => true
    | _ :: _, [] => false
    | a :: as, b :: bs => a == b && pyIsPre as bs

/-- Python string `v.lstrip()`: drop leading whitespace. -/
def pyLstrip (v : String) : String :=
  ⟨v.data.dropWhile Char.isWhitespace⟩

/-- Python string slice `v[1:]`. -/
def pyDropOne (v : String) : String :=
  ⟨v.data.drop 1⟩

/-- The body of `async_select_source` (inside its `adb_decorator()` wrap):
the device call it issues, `none` when no call is made. -/
def async_select_source_body (appNameToId : List (String × String))
    (source : SourceArg) : Option DeviceCmd :=
  match source with
  | .notStr => none
  | .str v =>
    if !(pyStartswith v "!") then
      some (.launchApp ((dget appNameToId v).getD v))
    else
      let v2 := pyLstrip (pyDropOne v)
      some (.stopApp ((dget appNameToId v2).getD v2))

/-! ### `async_setup_entry` / `async_connect_androidtv` (__init__.py) -/

/-- Device class `config[CONF_DEVICE_CLASS]` as classified by `async_connect_androidtv`. -/
inductive DeviceClass where
  | androidtv
  | firetv
  | otherClass
deriving DecidableEq, Repr

/-- The configuration fields of the entry data that the connect path reads. -/
structure ConnectConfig where
  host : String
  port : Nat
  deviceClass : DeviceClass

/-- Address string `f"{config[CONF_HOST]}:{config[CONF_PORT]}"`. -/
def addressOf (c : ConnectConfig) : String :=
  c.host ++ ":" ++ toString c.port

/-- The device object returned by the external `androidtv` setup call,
reduced to the one attribute this code reads. -/
structure Aftv where
  available : Bool
deriving DecidableEq, Repr

/-- The device name used in the connect error message (the
`if`/`elif`/`else` on `config[CONF_DEVICE_CLASS]`,
__init__.py lines 103-108). -/
def deviceNameOf (dc : DeviceClass) : String :=
  match dc with
  | .androidtv => "Android TV device"
  | .firetv => "Fire TV device"
  | .otherClass => "Android TV / Fire TV device"

/-- Function `async_connect_androidtv` (__init__.py lines 79-113): run the external
setup (whose resulting `aftv.available` is the parameter `aftvAvailable`,
and whose `adb_log` string is the parameter `adbLog`); if the device
reports itself unavailable return `(None, error_message)`, else
`(aftv, None)`. -/
def async_connect_androidtv (c : ConnectConfig) (adbLog : String)
    (aftvAvailable : Bool) : Option Aftv × Option String :=
  if !aftvAvailable then
    (none,
     some ("Could not connect to " ++ deviceNameOf c.deviceClass ++ " at "
           ++ addressOf c ++ " " ++ adbLog))
  else
    (some { available := aftvAvailable }, none)

/-- Result of `async_setup_entry` (__init__.py lines 139-168): either the
`ConfigEntryNotReady` exception carrying the connect error message, or a
completed setup storing the device and a copy of the entry options in
`hass.data` and registering the `EVENT_HOMEASSISTANT_STOP` close
listener. -/
inductive SetupOutcome where
  | notReady (msg : Option String)
  | ready (dev : Aftv) (storedOptions : List (String × String))
      (closeListenerRegistered : Bool)
deriving DecidableEq, Repr

/-- Function `async_setup_entry` (__init__.py lines 139-168), with the entry options
(after `_migrate_options_key`) passed as `options`. -/
def async_setup_entry (c : ConnectConfig) (adbLog : String)
    (aftvAvailable : Bool) (options : List (String × String)) : SetupOutcome :=
  match async_connect_androidtv c adbLog aftvAvailable with
  | (none, errorMessage) => .notReady errorMessage
  | (some aftv, _) => .ready aftv options true

/-! ### `_validate_state_det_rules` and the rules options step
(config_flow.py lines 322-384) -/

/-- JSON values, as produced by `json.loads`. -/
inductive JsonVal where
  | arr (xs : List JsonVal)
  | obj (fields : List (String × JsonVal))
  | str (s : String)
  | num (n : Int)
  | bool (b : Bool)
  | null

/-- Wrapping step `if not isinstance(json_rules, list): json_rules = [json_rules]`. -/
def wrapAsList (j : JsonVal) : List JsonVal :=
  match j with
  | .arr xs => xs
  | v => [v]

/-- Function `_validate_state_det_rules` (config_flow.py lines 368-384).  The two
external calls are parameters: `parsed` is the outcome of
`json.loads(state_det_rules)` (`none` models the caught `ValueError`)
and `validatorOk` models whether `state_detection_rules_validator`
accepts the rules without raising `ValueError`. -/
def validate_state_det_rules (parsed : Option JsonVal)
    (validatorOk : List JsonVal → Bool) : Option (List JsonVal) :=
  match parsed with
  | none => none
  | some j =>
    let jsonRules := wrapAsList j
    if validatorOk jsonRules then some jsonRules else none

/-- What the rules step does after handling a submission. -/
inductive RulesStepOutcome where
  | rulesFormWithError      -- re-display the rules form with invalid_det_rules
  | backToInit              -- fall through to `async_step_init()`
deriving DecidableEq, Repr

/-- Python truthiness of an optional string (`None` and `""` are falsy). -/
def truthyOpt (o : Option String) : Bool :=
  match o with
  | some v => v != ""
  | none => false

/-- The submission branch of `OptionsFlowHandler.async_step_rules`
(config_flow.py lines 328-343), acting on the working copy
`self._state_det_rules`.  `ruleId` is the resolved
`user_input.get(CONF_RULE_ID, self._conf_rule_id)`, `strRule` the raw
`user_input.get(CONF_RULE_VALUES)`, and `parsed` / `validatorOk` the
external outcomes fed to `_validate_state_det_rules` for that string.
(The delete branch calls `dict.pop`, which would raise for a missing id;
that path is outside the claims considered here.) -/
def async_step_rules_submit (ruleId : Option String) (delete : Bool)
    (strRule : Option String) (parsed : Option JsonVal)
    (validatorOk : List JsonVal → Bool)
    (rules : List (String × List JsonVal)) :
    List (String × List JsonVal) × RulesStepOutcome :=
  if truthyOpt ruleId then
    let rid := ruleId.getD ""
    if delete then
      (dpop rules rid, .backToInit)
    else if truthyOpt strRule then
      match validate_state_det_rules parsed validatorOk with
      | none => (rules, .rulesFormWithError)
      | some stateDetRule => (dinsert rules rid stateDetRule, .backToInit)
    else (rules, .backToInit)
  else (rules, .backToInit)

/-! ### The availability / failed-connect-counter invariant -/

/-- The implicit state-machine invariant: when the entity is available,
the consecutive failed-connect counter is zero. -/
def Inv (s : EntState) : Prop :=
  s.available = true → s.failedConnectCount = 0

/-! ### Concrete example values -/

/-- A concrete entity state as initialised by `ADBDevice.__init__`
(available, counter zero, nothing reported yet). -/
def exState : EntState :=
  { available := true, connectionOpen := true, failedConnectCount := 0,
    haState := none, appId := none, source := none, appName := none,
    sourceList := none, isVolumeMuted := none, volumeLevel := none,
    hdmiInput := none }

/-- State `exState` with the available flag cleared. -/
def exStateOff : EntState :=
  { exState with available := false }

/-- A concrete Android TV telemetry tuple. -/
def exTelA : AndroidTelemetry :=
  { state := "playing", currentApp := none, runningApps := none,
    awake := true, isVolumeMuted := none, volumeLevel := none,
    hdmiInput := none }

/-- A concrete Android TV telemetry tuple with an unmapped raw state. -/
def exTelABad : AndroidTelemetry :=
  { exTelA with state := "booting" }

/-- A concrete Fire TV telemetry tuple. -/
def exTelF : FireTelemetry :=
  { state := "playing", currentApp := none, runningApps := none,
    hdmiInput := none }

/-- A concrete entry configuration. -/
def exCfg : ConnectConfig :=
  { host := "127.0.0.1", port := 5555, deviceClass := .androidtv }

/-! ### Lemmas about the dict model -/

theorem dget_nil {α : Type} (k : String) : dget ([] : List (String × α)) k = none := rfl

theorem dget_cons {α : Type} (q : String × α) (rest : List (String × α)) (k : String) :
    dget (q :: rest) k = if q.1 = k then some q.2 else dget rest k := by
  by_cases h : q.1 = k
  · simp [dget, List.find?_cons_of_pos, h]
  · rw [if_neg h]
    have hb : ((fun p => p.1 == k) q) = false := by simpa using h
    simp [dget, List.find?_cons_of_neg, hb]

theorem dget_dinsert {α : Type} (d : List (String × α)) (k : String) (v : α) (q : String) :
    dget (dinsert d k v) q = if q = k then some v else dget d q := by
  induction d with
  | nil =>
    by_cases h : q = k
    · simp [dinsert, dget_cons, h]
    · simp [dinsert, dget_cons, h, Ne.symm h, dget_nil]
  | cons p rest ih =>
    by_cases hp : p.1 = k
    · simp only [dinsert, hp, beq_self_eq_true, if_true]
      by_cases h : q = k
      · simp [dget_cons, h]
      · simp [dget_cons, h, Ne.symm h, hp]
    · have hb : (p.1 == k) = false := by simpa using hp
      simp only [dinsert, hb, Bool.false_eq_true, if_false]
      by_cases h : q = k
      · subst h
        simp [dget_cons, hp, ih]
      · simp [dget_cons, ih, h]

theorem mem_dinsert_weak {α : Type} {d : List (String × α)} {k : String} {v : α}
    {p : String × α} (hp : p ∈ dinsert d k v) : p = (k, v) ∨ p ∈ d := by
  induction d with
  | nil => simpa [dinsert] using hp
  | cons q rest ih =>
    by_cases hq : q.1 = k
    · simp only [dinsert, hq, beq_self_eq_true, if_true] at hp
      rcases List.mem_cons.mp hp with h | h
      · exact Or.inl h
      · exact Or.inr (List.mem_cons_of_mem _ h)
    · have hb : (q.1 == k) = false := by simpa using hq
      simp only [dinsert, hb, Bool.false_eq_true, if_false] at hp
      rcases List.mem_cons.mp hp with h | h
      · exact Or.inr (h ▸ List.mem_cons_self _ _)
      · rcases ih h with h2 | h2
        · exact Or.inl h2
        · exact Or.inr (List.mem_cons_of_mem _ h2)

theorem mem_dinsert_of_ne {α : Type} {d : List (String × α)} {k : String} {v : α}
    {p : String × α} (hp : p ∈ d) (hne : p.1 ≠ k) : p ∈ dinsert d k v := by
  induction d with
  | nil => cases hp
  | cons q rest ih =>
    by_cases hq : q.1 = k
    · simp only [dinsert, hq, beq_self_eq_true, if_true]
      rcases List.mem_cons.mp hp with h | h
      · exact absurd (h ▸ hq) hne
      · exact List.mem_cons_of_mem _ h
    · have hb : (q.1 == k) = false := by simpa using hq
      simp only [dinsert, hb, Bool.false_eq_true, if_false]
      rcases List.mem_cons.mp hp with h | h
      · exact h ▸ List.mem_cons_self _ _
      · exact List.mem_cons_of_mem _ (ih h)

theorem mem_dupdate_of_keys_ne {α : Type} {base l : List (String × α)}
    {p : String × α} (hp : p ∈ base) (h : ∀ q ∈ l, q.1 ≠ p.1) :
    p ∈ dupdate base l := by
  induction l generalizing base with
  | nil => simpa [dupdate] using hp
  | cons q rest ih =>
    have hq : q.1 ≠ p.1 := h q (List.mem_cons_self _ _)
    have hmem : p ∈ dinsert base q.1 q.2 :=
      mem_dinsert_of_ne hp (fun hh => hq hh.symm)
    have hrest : ∀ r ∈ rest, r.1 ≠ p.1 := fun r hr => h r (List.mem_cons_of_mem _ hr)
    simpa [dupdate] using ih hmem hrest

theorem dupdate_value_unique {α : Type} {base l : List (String × α)}
    {n : α} {d : String}
    (hbase : ∀ p ∈ base, p.2 = n → p.1 = d)
    (hl : ∀ q ∈ l, q.2 ≠ n) :
    ∀ p ∈ dupdate base l, p.2 = n → p.1 = d := by
  induction l generalizing base with
  | nil => simpa [dupdate] using hbase
  | cons q rest ih =>
    have hq : q.2 ≠ n := hl q (List.mem_cons_self _ _)
    have hbase2 : ∀ p ∈ dinsert base q.1 q.2, p.2 = n → p.1 = d := by
      intro p hp hpn
      rcases mem_dinsert_weak hp with h | h
      · exact absurd (by rw [h] at hpn; exact hpn) hq
      · exact hbase p h hpn
    have hrest : ∀ r ∈ rest, r.2 ≠ n := fun r hr => hl r (List.mem_cons_of_mem _ hr)
    simpa [dupdate] using ih hbase2 hrest

theorem dget_foldl_compIns_of_notmem {L : List (String × String)}
    {acc : List (String × String)} {n : String} (h : ∀ p ∈ L, p.2 ≠ n) :
    dget (L.foldl compIns acc) n = dget acc n := by
  induction L generalizing acc with
  | nil => simp
  | cons q rest ih =>
    have hq : q.2 ≠ n := h q (List.mem_cons_self _ _)
    have hrest : ∀ p ∈ rest, p.2 ≠ n := fun p hp => h p (List.mem_cons_of_mem _ hp)
    have hstep : dget (compIns acc q) n = dget acc n := by
      unfold compIns
      by_cases he : q.2 = ""
      · simp [he]
      · simp only [bne_iff_ne, ne_eq, he, not_false_eq_true, if_true]
        rw [dget_dinsert]
        simp [Ne.symm hq]
    simp only [List.foldl_cons]
    rw [ih hrest, hstep]

theorem dget_foldl_loopIns_of_notmem {L : List (String × String)}
    {acc : List (String × String)} {n : String} (h : ∀ p ∈ L, p.2 ≠ n) :
    dget (L.foldl loopIns acc) n = dget acc n := by
  induction L generalizing acc with
  | nil => simp
  | cons q rest ih =>
    have hq : q.2 ≠ n := h q (List.mem_cons_self _ _)
    have hrest : ∀ p ∈ rest, p.2 ≠ n := fun p hp => h p (List.mem_cons_of_mem _ hp)
    have hstep : dget (loopIns acc q) n = dget acc n := by
      unfold loopIns
      rw [dget_dinsert]
      simp [Ne.symm hq]
    simp only [List.foldl_cons]
    rw [ih hrest, hstep]

theorem dget_foldl_loopIns_mem {L : List (String × String)}
    {acc : List (String × String)} {i n : String}
    (hmem : (i, n) ∈ L) (hnodup : L.Pairwise (fun p q => p.2 ≠ q.2)) :
    dget (L.foldl loopIns acc) n = some i := by
  induction L generalizing acc with
  | nil => cases hmem
  | cons q rest ih =>
    rcases List.pairwise_cons.mp hnodup with ⟨hhead, htail⟩
    rcases List.mem_cons.mp hmem with h | h
    · have hq2 : q.2 = n := by rw [← h]
      have hrest : ∀ p ∈ rest, p.2 ≠ n := by
        intro p hp
        have := hhead p hp
        rw [hq2] at this
        exact fun hh => this hh.symm
      simp only [List.foldl_cons]
      rw [dget_foldl_loopIns_of_notmem hrest]
      unfold loopIns
      rw [dget_dinsert, hq2]
      simp [← h]
    · simp only [List.foldl_cons]
      exact ih h htail

theorem dget_foldl_compIns_unique {L : List (String × String)}
    {acc : List (String × String)} {d n : String} (hne : n ≠ "")
    (h1 : ∀ p ∈ L, p.2 = n → p = (d, n))
    (h3 : dget acc n = some d ∨ (d, n) ∈ L) :
    dget (L.foldl compIns acc) n = some d := by
  induction L generalizing acc with
  | nil =>
    rcases h3 with h | h
    · simpa using h
    · cases h
  | cons q rest ih =>
    have h1rest : ∀ p ∈ rest, p.2 = n → p = (d, n) := fun p hp =>
      h1 p (List.mem_cons_of_mem _ hp)
    by_cases hq : q.2 = n
    · have hqd : q = (d, n) := h1 q (List.mem_cons_self _ _) hq
      have hstep : dget (compIns acc q) n = some d := by
        unfold compIns
        rw [hqd]
        simp only [bne_iff_ne, ne_eq, hne, not_false_eq_true, if_true]
        rw [dget_dinsert]
        simp
      simp only [List.foldl_cons]
      exact ih h1rest (Or.inl hstep)
    · have hstep : dget (compIns acc q) n = dget acc n := by
        unfold compIns
        by_cases he : q.2 = ""
        · simp [he]
        · simp only [bne_iff_ne, ne_eq, he, not_false_eq_true, if_true]
          rw [dget_dinsert]
          simp [Ne.symm hq]
      have h3rest : dget (compIns acc q) n = some d ∨ (d, n) ∈ rest := by
        rcases h3 with h | h
        · exact Or.inl (hstep.trans h)
        · rcases List.mem_cons.mp h with hh | hh
          · exact absurd (by rw [← hh] at hq; exact hq rfl) (fun _ => hq (by rw [← hh]))
          · exact Or.inr hh
      simp only [List.foldl_cons]
      exact ih h1rest h3rest

/-! ### Helper lemmas about the update phases -/

theorem androidtvPollPhase_count (p : CallResult AndroidTelemetry) (e : Bool)
    (d : List (String × String)) (s : EntState) (att : Option Bool) :
    (androidtvPollPhase p e d s att).1.failedConnectCount = s.failedConnectCount := by
  unfold androidtvPollPhase
  by_cases hs : s.available = true
  · cases p with
    | raise e2 => simp [hs]
    | ok t =>
      by_cases hn : (statesGet t.state).isNone <;>
        by_cases ha : appsTruthy t.runningApps <;> simp [hs, hn, ha]
  · have hs2 : s.available = false := by simpa using hs
    simp [hs2]

theorem firetvPollPhase_count (p : CallResult FireTelemetry) (e : Bool)
    (d : List (String × String)) (s : EntState) (att : Option Bool) :
    (firetvPollPhase p e d s att).1.failedConnectCount = s.failedConnectCount := by
  unfold firetvPollPhase
  by_cases hs : s.available = true
  · cases p with
    | raise e2 => simp [hs]
    | ok t =>
      by_cases hn : (statesGet t.state).isNone <;>
        by_cases ha : appsTruthy t.runningApps <;> simp [hs, hn, ha]
  · have hs2 : s.available = false := by simpa using hs
    simp [hs2]

theorem androidtvPollPhase_avail (p : CallResult AndroidTelemetry) (e : Bool)
    (d : List (String × String)) (s : EntState) (att : Option Bool)
    (h : (androidtvPollPhase p e d s att).1.available = true) :
    s.available = true := by
  by_contra hs
  have hs2 : s.available = false := by simpa using hs
  simp [androidtvPollPhase, hs2] at h

theorem firetvPollPhase_avail (p : CallResult FireTelemetry) (e : Bool)
    (d : List (String × String)) (s : EntState) (att : Option Bool)
    (h : (firetvPollPhase p e d s att).1.available = true) :
    s.available = true := by
  by_contra hs
  have hs2 : s.available = false := by simpa using hs
  simp [firetvPollPhase, hs2] at h

theorem androidtvPollPhase_inv (p : CallResult AndroidTelemetry) (e : Bool)
    (d : List (String × String)) (s : EntState) (att : Option Bool)
    (hs : Inv s) : Inv (androidtvPollPhase p e d s att).1 := by
  intro hav
  rw [androidtvPollPhase_count]
  exact hs (androidtvPollPhase_avail p e d s att hav)

theorem firetvPollPhase_inv (p : CallResult FireTelemetry) (e : Bool)
    (d : List (String × String)) (s : EntState) (att : Option Bool)
    (hs : Inv s) : Inv (firetvPollPhase p e d s att).1 := by
  intro hav
  rw [firetvPollPhase_count]
  exact hs (firetvPollPhase_avail p e d s att hav)

theorem androidtvUpdateInner_inv (c : CallResult Bool)
    (p : CallResult AndroidTelemetry) (e : Bool)
    (d : List (String × String)) (s : EntState) (hs : Inv s) :
    Inv (androidtvUpdateInner c p e d s).1 := by
  unfold androidtvUpdateInner
  by_cases h : s.available = true
  · simp only [h]
    exact androidtvPollPhase_inv p e d s none hs
  · have h2 : s.available = false := by simpa using h
    cases c with
    | ok b =>
      cases b with
      | true =>
        simp only [h2]
        exact androidtvPollPhase_inv p e d _ _ (fun _ => rfl)
      | false =>
        simp only [h2]
        apply androidtvPollPhase_inv
        intro hav
        exact absurd hav (by simp [h2])
    | raise e2 =>
      simp only [h2]
      intro hav
      exact absurd hav (by simp [h2])

theorem firetvUpdateInner_inv (c : CallResult Bool)
    (p : CallResult FireTelemetry) (e : Bool)
    (d : List (String × String)) (s : EntState) (hs : Inv s) :
    Inv (firetvUpdateInner c p e d s).1 := by
  unfold firetvUpdateInner
  by_cases h : s.available = true
  · simp only [h]
    exact firetvPollPhase_inv p e d s none hs
  · have h2 : s.available = false := by simpa using h
    cases c with
    | ok b =>
      cases b with
      | true =>
        simp only [h2]
        exact firetvPollPhase_inv p e d _ _ (fun _ => rfl)
      | false =>
        simp only [h2]
        apply firetvPollPhase_inv
        intro hav
        exact absurd hav (by simp [h2])
    | raise e2 =>
      simp only [h2]
      intro hav
      exact absurd hav (by simp [h2])

theorem adbDecorator_inv {α : Type} (ov : Bool)
    (func : EntState → EntState × CallResult α)
    (hf : ∀ st, Inv st → Inv (func st).1) (s : EntState) (hs : Inv s) :
    Inv (adbDecorator ov func s).1 := by
  unfold adbDecorator
  by_cases hg : (!s.available && !ov) = true
  · simp only [hg, if_true]
    exact hs
  · simp only [hg, if_false]
    have hfs := hf s hs
    rcases hr : func s with ⟨s2, r⟩
    rw [hr] at hfs
    cases r with
    | ok a => exact hfs
    | raise e =>
      cases e with
      | lockNotAcquired => exact hfs
      | adb => intro hav; simp at hav
      | other => intro hav; simp at hav

theorem androidtvPollPhase_unavail (p : CallResult AndroidTelemetry) (e : Bool)
    (d : List (String × String)) (s : EntState) (att : Option Bool)
    (hs : s.available = false) :
    androidtvPollPhase p e d s att = (s, ⟨att, false⟩, .ok ()) := by
  simp [androidtvPollPhase, hs]

theorem firetvPollPhase_unavail (p : CallResult FireTelemetry) (e : Bool)
    (d : List (String × String)) (s : EntState) (att : Option Bool)
    (hs : s.available = false) :
    firetvPollPhase p e d s att = (s, ⟨att, false⟩, .ok ()) := by
  simp [firetvPollPhase, hs]

theorem androidtvPollPhase_raise (ex : Exc) (e : Bool)
    (d : List (String × String)) (s : EntState) (att : Option Bool)
    (hs : s.available = true) :
    androidtvPollPhase (.raise ex) e d s att = (s, ⟨att, true⟩, .raise ex) := by
  simp [androidtvPollPhase, hs]

theorem firetvPollPhase_raise (ex : Exc) (e : Bool)
    (d : List (String × String)) (s : EntState) (att : Option Bool)
    (hs : s.available = true) :
    firetvPollPhase (.raise ex) e d s att = (s, ⟨att, true⟩, .raise ex) := by
  simp [firetvPollPhase, hs]

theorem androidtvPollPhase_att (p : CallResult AndroidTelemetry) (e : Bool)
    (d : List (String × String)) (s : EntState) (att : Option Bool) :
    (androidtvPollPhase p e d s att).2.1.connectAttempted = att := by
  unfold androidtvPollPhase
  by_cases hs : s.available = true
  · cases p with
    | raise e2 => simp [hs]
    | ok t =>
      by_cases hn : (statesGet t.state).isNone <;>
        by_cases ha : appsTruthy t.runningApps <;> simp [hs, hn, ha]
  · have hs2 : s.available = false := by simpa using hs
    simp [hs2]

theorem firetvPollPhase_att (p : CallResult FireTelemetry) (e : Bool)
    (d : List (String × String)) (s : EntState) (att : Option Bool) :
    (firetvPollPhase p e d s att).2.1.connectAttempted = att := by
  unfold firetvPollPhase
  by_cases hs : s.available = true
  · cases p with
    | raise e2 => simp [hs]
    | ok t =>
      by_cases hn : (statesGet t.state).isNone <;>
        by_cases ha : appsTruthy t.runningApps <;> simp [hs, hn, ha]
  · have hs2 : s.available = false := by simpa using hs
    simp [hs2]

theorem androidtvPollPhase_polled (p : CallResult AndroidTelemetry) (e : Bool)
    (d : List (String × String)) (s : EntState) (att : Option Bool) :
    (androidtvPollPhase p e d s att).2.1.polled = s.available := by
  unfold androidtvPollPhase
  by_cases hs : s.available = true
  · cases p with
    | raise e2 => simp [hs]
    | ok t =>
      by_cases hn : (statesGet t.state).isNone <;>
        by_cases ha : appsTruthy t.runningApps <;> simp [hs, hn, ha]
  · have hs2 : s.available = false := by simpa using hs
    simp [hs2]

theorem firetvPollPhase_polled (p : CallResult FireTelemetry) (e : Bool)
    (d : List (String × String)) (s : EntState) (att : Option Bool) :
    (firetvPollPhase p e d s att).2.1.polled = s.available := by
  unfold firetvPollPhase
  by_cases hs : s.available = true
  · cases p with
    | raise e2 => simp [hs]
    | ok t =>
      by_cases hn : (statesGet t.state).isNone <;>
        by_cases ha : appsTruthy t.runningApps <;> simp [hs, hn, ha]
  · have hs2 : s.available = false := by simpa using hs
    simp [hs2]

theorem androidtvPollPhase_ok_avail (t : AndroidTelemetry) (e : Bool)
    (d : List (String × String)) (s : EntState) (att : Option Bool)
    (hs : s.available = true) :
    (androidtvPollPhase (.ok t) e d s att).1.available =
      !(statesGet t.state).isNone := by
  unfold androidtvPollPhase
  by_cases hn : (statesGet t.state).isNone <;>
    by_cases ha : appsTruthy t.runningApps <;> simp [hs, hn, ha]

theorem firetvPollPhase_ok_avail (t : FireTelemetry) (e : Bool)
    (d : List (String × String)) (s : EntState) (att : Option Bool)
    (hs : s.available = true) :
    (firetvPollPhase (.ok t) e d s att).1.available =
      !(statesGet t.state).isNone := by
  unfold firetvPollPhase
  by_cases hn : (statesGet t.state).isNone <;>
    by_cases ha : appsTruthy t.runningApps <;> simp [hs, hn, ha]

theorem androidtvPollPhase_ok_haState (t : AndroidTelemetry) (e : Bool)
    (d : List (String × String)) (s : EntState) (att : Option Bool)
    (hs : s.available = true) :
    (androidtvPollPhase (.ok t) e d s att).1.haState = statesGet t.state := by
  unfold androidtvPollPhase
  by_cases hn : (statesGet t.state).isNone <;>
    by_cases ha : appsTruthy t.runningApps <;> simp [hs, hn, ha]

theorem firetvPollPhase_ok_haState (t : FireTelemetry) (e : Bool)
    (d : List (String × String)) (s : EntState) (att : Option Bool)
    (hs : s.available = true) :
    (firetvPollPhase (.ok t) e d s att).1.haState = statesGet t.state := by
  unfold firetvPollPhase
  by_cases hn : (statesGet t.state).isNone <;>
    by_cases ha : appsTruthy t.runningApps <;> simp [hs, hn, ha]

theorem androidtvUpdateInner_avail (c : CallResult Bool)
    (p : CallResult AndroidTelemetry) (e : Bool)
    (d : List (String × String)) (s : EntState) (hs : s.available = true) :
    androidtvUpdateInner c p e d s = androidtvPollPhase p e d s none := by
  simp [androidtvUpdateInner, hs]

theorem firetvUpdateInner_avail (c : CallResult Bool)
    (p : CallResult FireTelemetry) (e : Bool)
    (d : List (String × String)) (s : EntState) (hs : s.available = true) :
    firetvUpdateInner c p e d s = firetvPollPhase p e d s none := by
  simp [firetvUpdateInner, hs]

theorem androidtvUpdateInner_conn_true (p : CallResult AndroidTelemetry)
    (e : Bool) (d : List (String × String)) (s : EntState)
    (hs : s.available = false) :
    androidtvUpdateInner (.ok true) p e d s =
      androidtvPollPhase p e d
        { s with failedConnectCount := 0, available := true,
                 connectionOpen := true }
        (some (s.failedConnectCount == 0)) := by
  simp [androidtvUpdateInner, hs]

theorem firetvUpdateInner_conn_true (p : CallResult FireTelemetry)
    (e : Bool) (d : List (String × String)) (s : EntState)
    (hs : s.available = false) :
    firetvUpdateInner (.ok true) p e d s =
      firetvPollPhase p e d
        { s with failedConnectCount := 0, available := true,
                 connectionOpen := true }
        (some (s.failedConnectCount == 0)) := by
  simp [firetvUpdateInner, hs]

theorem androidtvUpdateInner_conn_false (p : CallResult AndroidTelemetry)
    (e : Bool) (d : List (String × String)) (s : EntState)
    (hs : s.available = false) :
    androidtvUpdateInner (.ok false) p e d s =
      ({ s with failedConnectCount := s.failedConnectCount + 1 },
       ⟨some (s.failedConnectCount == 0), false⟩, .ok ()) := by
  simp [androidtvUpdateInner, hs, androidtvPollPhase_unavail]

theorem firetvUpdateInner_conn_false (p : CallResult FireTelemetry)
    (e : Bool) (d : List (String × String)) (s : EntState)
    (hs : s.available = false) :
    firetvUpdateInner (.ok false) p e d s =
      ({ s with failedConnectCount := s.failedConnectCount + 1 },
       ⟨some (s.failedConnectCount == 0), false⟩, .ok ()) := by
  simp [firetvUpdateInner, hs, firetvPollPhase_unavail]

theorem androidtvUpdateInner_conn_raise (ex : Exc)
    (p : CallResult AndroidTelemetry) (e : Bool)
    (d : List (String × String)) (s : EntState) (hs : s.available = false) :
    androidtvUpdateInner (.raise ex) p e d s =
      (s, ⟨some (s.failedConnectCount == 0), false⟩, .raise ex) := by
  simp [androidtvUpdateInner, hs]

theorem firetvUpdateInner_conn_raise (ex : Exc)
    (p : CallResult FireTelemetry) (e : Bool)
    (d : List (String × String)) (s : EntState) (hs : s.available = false) :
    firetvUpdateInner (.raise ex) p e d s =
      (s, ⟨some (s.failedConnectCount == 0), false⟩, .raise ex) := by
  simp [firetvUpdateInner, hs]

/-! ### Claim theorems -/

/-- C1: every `adb_decorator`-wrapped device call follows one uniform
failure-recovery policy: unavailable with `override_available=False`
returns `None` without invoking the underlying call; a
`LockNotAcquiredException` returns `None` leaving the available flag and
the ADB connection exactly as the call left them; an expected ADB
exception closes the ADB connection, clears the available flag and
returns `None`; any other exception closes the ADB connection, clears
the available flag and re-raises. -/
theorem adb_decorator_uniform_policy {α : Type}
    (ov : Bool) (func : EntState → EntState × CallResult α) (s s2 : EntState) :
    (s.available = false → ov = false →
      ∀ g : EntState → EntState × CallResult α,
        adbDecorator ov g s = (s, .value none)) ∧
    (s.available = true ∨ ov = true →
      ((func s = (s2, .raise .lockNotAcquired) →
          adbDecorator ov func s = (s2, .value none)) ∧
       (func s = (s2, .raise .adb) →
          adbDecorator ov func s =
            ({ s2 with connectionOpen := false, available := false },
             .value none)) ∧
       (func s = (s2, .raise .other) →
          adbDecorator ov func s =
            ({ s2 with connectionOpen := false, available := false },
             .reraised .other)))) := by
  constructor
  · intro h1 h2 g
    simp [adbDecorator, h1, h2]
  · intro hgate
    have hg : (!s.available && !ov) = false := by
      rcases hgate with h | h <;> simp [h]
    refine ⟨?_, ?_, ?_⟩ <;> intro hf <;> simp [adbDecorator, hg, hf]

/-- Witness for C1: a concrete expected-ADB-exception outcome. -/
theorem adb_decorator_uniform_policy_witness :
    adbDecorator false (fun st => (st, CallResult.raise Exc.adb)) exState =
      ({ exState with connectionOpen := false, available := false },
       WrapResult.value (none : Option Unit)) :=
  ((adb_decorator_uniform_policy false
      (fun st => (st, CallResult.raise Exc.adb)) exState exState).2
    (Or.inl rfl)).2.1 rfl

/-- C2: in `async_update` of both device classes, when the entity is
unavailable a reconnect is attempted with `log_errors` enabled exactly
when the failed-connect counter is zero; a successful connect resets the
counter to zero and sets the available flag (the poll phase then runs on
that state); a failed connect increments the counter and leaves the
entity unavailable; hence a repeated (counter nonzero) failure attempts
the connect with error logging disabled. -/
theorem async_update_reconnect_policy
    (s : EntState) (h : s.available = false)
    (pollA : CallResult AndroidTelemetry) (pollF : CallResult FireTelemetry)
    (exclude : Bool) (d : List (String × String)) :
    (∀ b : Bool,
      (androidtvUpdateInner (.ok b) pollA exclude d s).2.1.connectAttempted
          = some (s.failedConnectCount == 0) ∧
      (firetvUpdateInner (.ok b) pollF exclude d s).2.1.connectAttempted
          = some (s.failedConnectCount == 0)) ∧
    (androidtvUpdateInner (.ok true) pollA exclude d s =
      androidtvPollPhase pollA exclude d
        { s with failedConnectCount := 0, available := true,
                 connectionOpen := true }
        (some (s.failedConnectCount == 0))) ∧
    (firetvUpdateInner (.ok true) pollF exclude d s =
      firetvPollPhase pollF exclude d
        { s with failedConnectCount := 0, available := true,
                 connectionOpen := true }
        (some (s.failedConnectCount == 0))) ∧
    (androidtvUpdateInner (.ok false) pollA exclude d s =
      ({ s with failedConnectCount := s.failedConnectCount + 1 },
       ⟨some (s.failedConnectCount == 0), false⟩, .ok ())) ∧
    (firetvUpdateInner (.ok false) pollF exclude d s =
      ({ s with failedConnectCount := s.failedConnectCount + 1 },
       ⟨some (s.failedConnectCount == 0), false⟩, .ok ())) ∧
    (s.failedConnectCount ≠ 0 →
      (androidtvUpdateInner (.ok false) pollA exclude d s).2.1.connectAttempted
        = some false ∧
      (firetvUpdateInner (.ok false) pollF exclude d s).2.1.connectAttempted
        = some false) := by
  refine ⟨?_, ?_, ?_, ?_, ?_, ?_⟩
  · intro b
    cases b with
    | true =>
      rw [androidtvUpdateInner_conn_true pollA exclude d s h,
          firetvUpdateInner_conn_true pollF exclude d s h,
          androidtvPollPhase_att, firetvPollPhase_att]
      exact ⟨rfl, rfl⟩
    | false =>
      rw [androidtvUpdateInner_conn_false pollA exclude d s h,
          firetvUpdateInner_conn_false pollF exclude d s h]
      exact ⟨rfl, rfl⟩
  · exact androidtvUpdateInner_conn_true pollA exclude d s h
  · exact firetvUpdateInner_conn_true pollF exclude d s h
  · exact androidtvUpdateInner_conn_false pollA exclude d s h
  · exact firetvUpdateInner_conn_false pollF exclude d s h
  · intro hc
    rw [androidtvUpdateInner_conn_false pollA exclude d s h,
        firetvUpdateInner_conn_false pollF exclude d s h]
    have : (s.failedConnectCount == 0) = false := by simpa using hc
    rw [this]
    exact ⟨rfl, rfl⟩

/-- Witness for C2: a failed reconnect from the first-failure state. -/
theorem async_update_reconnect_policy_witness :
    androidtvUpdateInner (.ok false) (.ok exTelA) false [] exStateOff =
      ({ exStateOff with failedConnectCount := 1 },
       ⟨some true, false⟩, .ok ()) :=
  (async_update_reconnect_policy exStateOff rfl (.ok exTelA) (.ok exTelF)
    false []).2.2.2.1

/-- C3: during `async_update` the raw device state string is normalized
through the fixed `ANDROIDTV_STATES` mapping; every raw state outside the
five mapped ones yields entity state `None` and clears the available
flag. -/
theorem async_update_state_normalization :
    (statesGet "off" = some HAState.off ∧
     statesGet "idle" = some HAState.idle ∧
     statesGet "standby" = some HAState.standby ∧
     statesGet "playing" = some HAState.playing ∧
     statesGet "paused" = some HAState.paused) ∧
    (∀ raw : String,
      raw ∉ ["off", "idle", "standby", "playing", "paused"] →
      statesGet raw = none) ∧
    (∀ (s : EntState) (c : CallResult Bool) (e : Bool)
        (d : List (String × String)) (t : AndroidTelemetry),
      s.available = true →
      (androidtvUpdateInner c (.ok t) e d s).1.haState = statesGet t.state ∧
      (statesGet t.state = none →
        (androidtvUpdateInner c (.ok t) e d s).1.available = false)) ∧
    (∀ (s : EntState) (c : CallResult Bool) (e : Bool)
        (d : List (String × String)) (t : FireTelemetry),
      s.available = true →
      (firetvUpdateInner c (.ok t) e d s).1.haState = statesGet t.state ∧
      (statesGet t.state = none →
        (firetvUpdateInner c (.ok t) e d s).1.available = false)) := by
  refine ⟨⟨rfl, rfl, rfl, rfl, rfl⟩, ?_, ?_, ?_⟩
  · intro raw h
    simp only [List.mem_cons, List.not_mem_nil, or_false, not_or] at h
    obtain ⟨h1, h2, h3, h4, h5⟩ := h
    simp [statesGet, ANDROIDTV_STATES, dget_cons, dget_nil,
      Ne.symm h1, Ne.symm h2, Ne.symm h3, Ne.symm h4, Ne.symm h5]
  · intro s c e d t hs
    rw [androidtvUpdateInner_avail c _ e d s hs]
    constructor
    · exact androidtvPollPhase_ok_haState t e d s none hs
    · intro hn
      rw [androidtvPollPhase_ok_avail t e d s none hs, hn]
      rfl
  · intro s c e d t hs
    rw [firetvUpdateInner_avail c _ e d s hs]
    constructor
    · exact firetvPollPhase_ok_haState t e d s none hs
    · intro hn
      rw [firetvPollPhase_ok_avail t e d s none hs, hn]
      rfl

/-- Witness for C3: an unmapped raw state makes the entity unavailable. -/
theorem async_update_state_normalization_witness :
    statesGet "booting" = none ∧
    (androidtvUpdateInner (.ok true) (.ok exTelABad) false []
        exState).1.available = false := by
  have h := async_update_state_normalization
  have hb : statesGet "booting" = none := h.2.1 "booting" (by decide)
  exact ⟨hb, (h.2.2.1 exState (.ok true) false [] exTelABad rfl).2 hb⟩

/-- C4: the two `async_update` methods implement equivalent
connection-recovery logic: from any initial state, for every connect
outcome and matching telemetry outcome (same raw state string, or the
same poll exception), they agree on the resulting available flag, the
failed-connect counter, and the call trace (connect attempt and poll
decision). -/
theorem async_update_equivalence
    (s : EntState) (c : CallResult Bool) (e : Bool)
    (d : List (String × String)) :
    (∀ (tA : AndroidTelemetry) (tF : FireTelemetry), tA.state = tF.state →
      ((androidtvUpdateInner c (.ok tA) e d s).1.available =
          (firetvUpdateInner c (.ok tF) e d s).1.available ∧
       (androidtvUpdateInner c (.ok tA) e d s).1.failedConnectCount =
          (firetvUpdateInner c (.ok tF) e d s).1.failedConnectCount ∧
       (androidtvUpdateInner c (.ok tA) e d s).2.1 =
          (firetvUpdateInner c (.ok tF) e d s).2.1)) ∧
    (∀ ex : Exc,
      ((androidtvUpdateInner c (.raise ex) e d s).1.available =
          (firetvUpdateInner c (.raise ex) e d s).1.available ∧
       (androidtvUpdateInner c (.raise ex) e d s).1.failedConnectCount =
          (firetvUpdateInner c (.raise ex) e d s).1.failedConnectCount ∧
       (androidtvUpdateInner c (.raise ex) e d s).2.1 =
          (firetvUpdateInner c (.raise ex) e d s).2.1)) := by
  constructor
  · intro tA tF hstate
    by_cases hs : s.available = true
    · rw [androidtvUpdateInner_avail c _ e d s hs,
          firetvUpdateInner_avail c _ e d s hs]
      refine ⟨?_, ?_, ?_⟩
      · rw [androidtvPollPhase_ok_avail tA e d s none hs,
            firetvPollPhase_ok_avail tF e d s none hs, hstate]
      · rw [androidtvPollPhase_count, firetvPollPhase_count]
      · apply UpdTrace.ext
        · rw [androidtvPollPhase_att, firetvPollPhase_att]
        · rw [androidtvPollPhase_polled, firetvPollPhase_polled]
    · have hs2 : s.available = false := by simpa using hs
      cases c with
      | ok b =>
        cases b with
        | true =>
          rw [androidtvUpdateInner_conn_true _ e d s hs2,
              firetvUpdateInner_conn_true _ e d s hs2]
          refine ⟨?_, ?_, ?_⟩
          · rw [androidtvPollPhase_ok_avail tA e d _ _ rfl,
                firetvPollPhase_ok_avail tF e d _ _ rfl, hstate]
          · rw [androidtvPollPhase_count, firetvPollPhase_count]
          · apply UpdTrace.ext
            · rw [androidtvPollPhase_att, firetvPollPhase_att]
            · rw [androidtvPollPhase_polled, firetvPollPhase_polled]
        | false =>
          rw [androidtvUpdateInner_conn_false _ e d s hs2,
              firetvUpdateInner_conn_false _ e d s hs2]
          exact ⟨rfl, rfl, rfl⟩
      | raise ex =>
        rw [androidtvUpdateInner_conn_raise ex _ e d s hs2,
            firetvUpdateInner_conn_raise ex _ e d s hs2]
        exact ⟨rfl, rfl, rfl⟩
  · intro ex
    by_cases hs : s.available = true
    · rw [androidtvUpdateInner_avail c _ e d s hs,
          firetvUpdateInner_avail c _ e d s hs,
          androidtvPollPhase_raise ex e d s none hs,
          firetvPollPhase_raise ex e d s none hs]
      exact ⟨rfl, rfl, rfl⟩
    · have hs2 : s.available = false := by simpa using hs
      cases c with
      | ok b =>
        cases b with
        | true =>
          rw [androidtvUpdateInner_conn_true _ e d s hs2,
              firetvUpdateInner_conn_true _ e d s hs2,
              androidtvPollPhase_raise ex e d _ _ rfl,
              firetvPollPhase_raise ex e d _ _ rfl]
          exact ⟨rfl, rfl, rfl⟩
        | false =>
          rw [androidtvUpdateInner_conn_false _ e d s hs2,
              firetvUpdateInner_conn_false _ e d s hs2]
          exact ⟨rfl, rfl, rfl⟩
      | raise ex2 =>
        rw [androidtvUpdateInner_conn_raise ex2 _ e d s hs2,
            firetvUpdateInner_conn_raise ex2 _ e d s hs2]
        exact ⟨rfl, rfl, rfl⟩

/-- Witness for C4: concrete matching telemetry, reconnect succeeding. -/
theorem async_update_equivalence_witness :
    (androidtvUpdateInner (.ok true) (.ok exTelA) false []
        exStateOff).1.available =
      (firetvUpdateInner (.ok true) (.ok exTelF) false []
        exStateOff).1.available :=
  ((async_update_equivalence exStateOff (.ok true) false []).1
    exTelA exTelF rfl).1

/-- C5: while the entity is unavailable, no `adb_decorator()`-wrapped
command reaches the underlying ADB call (the wrapper returns `None`
unchanged for every wrapped body), and `async_update` invokes
`aftv.update` exactly when the reconnect attempt of that same call
succeeded. -/
theorem unavailable_blocks_device_calls :
    (∀ (α : Type) (func : EntState → EntState × CallResult α) (s : EntState),
      s.available = false → adbDecorator false func s = (s, .value none)) ∧
    (∀ (s : EntState) (c : CallResult Bool) (p : CallResult AndroidTelemetry)
        (e : Bool) (d : List (String × String)), s.available = false →
      (((androidtvUpdateInner c p e d s).2.1.polled = true) ↔ c = .ok true)) ∧
    (∀ (s : EntState) (c : CallResult Bool) (p : CallResult FireTelemetry)
        (e : Bool) (d : List (String × String)), s.available = false →
      (((firetvUpdateInner c p e d s).2.1.polled = true) ↔ c = .ok true)) := by
  refine ⟨?_, ?_, ?_⟩
  · intro α func s hs
    simp [adbDecorator, hs]
  · intro s c p e d hs
    cases c with
    | ok b =>
      cases b with
      | true =>
        rw [androidtvUpdateInner_conn_true p e d s hs,
            androidtvPollPhase_polled]
        simp
      | false =>
        rw [androidtvUpdateInner_conn_false p e d s hs]
        simp
    | raise ex =>
      rw [androidtvUpdateInner_conn_raise ex p e d s hs]
      simp
  · intro s c p e d hs
    cases c with
    | ok b =>
      cases b with
      | true =>
        rw [firetvUpdateInner_conn_true p e d s hs, firetvPollPhase_polled]
        simp
      | false =>
        rw [firetvUpdateInner_conn_false p e d s hs]
        simp
    | raise ex =>
      rw [firetvUpdateInner_conn_raise ex p e d s hs]
      simp

/-- Witness for C5: blocked wrapped call and a poll after reconnect. -/
theorem unavailable_blocks_device_calls_witness :
    adbDecorator false (fun st => (st, CallResult.ok ())) exStateOff =
        (exStateOff, .value none) ∧
    (androidtvUpdateInner (.ok true) (.ok exTelA) false []
        exStateOff).2.1.polled = true :=
  ⟨unavailable_blocks_device_calls.1 Unit (fun st => (st, CallResult.ok ()))
      exStateOff rfl,
   (unavailable_blocks_device_calls.2.1 exStateOff (.ok true) (.ok exTelA)
      false [] rfl).mpr rfl⟩

/-- C6: "available implies zero failed-connect counter" is an invariant:
it is preserved by the decorated `async_update` of both device classes
for every connect / poll outcome, and by `adb_decorator` around any
wrapped body that leaves the available flag and the counter unchanged
(as every non-update wrapped method does). -/
theorem availability_counter_invariant :
    (∀ (c : CallResult Bool) (p : CallResult AndroidTelemetry) (e : Bool)
        (d : List (String × String)) (s : EntState),
      Inv s → Inv (androidtvAsyncUpdate c p e d s).1) ∧
    (∀ (c : CallResult Bool) (p : CallResult FireTelemetry) (e : Bool)
        (d : List (String × String)) (s : EntState),
      Inv s → Inv (firetvAsyncUpdate c p e d s).1) ∧
    (∀ (α : Type) (ov : Bool) (func : EntState → EntState × CallResult α)
        (s : EntState),
      (∀ st, (func st).1.available = st.available ∧
             (func st).1.failedConnectCount = st.failedConnectCount) →
      Inv s → Inv (adbDecorator ov func s).1) := by
  refine ⟨?_, ?_, ?_⟩
  · intro c p e d s hs
    exact adbDecorator_inv true _
      (fun st hst => androidtvUpdateInner_inv c p e d st hst) s hs
  · intro c p e d s hs
    exact adbDecorator_inv true _
      (fun st hst => firetvUpdateInner_inv c p e d st hst) s hs
  · intro α ov func s hfunc hs
    apply adbDecorator_inv ov func _ s hs
    intro st hst hav
    rw [(hfunc st).2]
    exact hst (by rw [← (hfunc st).1]; exact hav)

/-- Witness for C6: the invariant holds after a concrete update. -/
theorem availability_counter_invariant_witness :
    Inv (androidtvAsyncUpdate (.ok true) (.ok exTelA) false [] exState).1 :=
  availability_counter_invariant.1 (.ok true) (.ok exTelA) false [] exState
    (fun _ => rfl)

/-- C7: `async_select_source` launches the app whose configured name
matches a plain string source (falling back to the string itself as app
id), stops the analogously-resolved app when the string starts with `!`
(after stripping the `!` and leading whitespace), and makes no device
call for a non-string source. -/
theorem select_source_behavior (d : List (String × String)) (v : String) :
    (async_select_source_body d .notStr = none) ∧
    (pyStartswith v "!" = false →
      ((∀ i, dget d v = some i →
          async_select_source_body d (.str v) = some (.launchApp i)) ∧
       (dget d v = none →
          async_select_source_body d (.str v) = some (.launchApp v)))) ∧
    (pyStartswith v "!" = true →
      ((∀ i, dget d (pyLstrip (pyDropOne v)) = some i →
          async_select_source_body d (.str v) = some (.stopApp i)) ∧
       (dget d (pyLstrip (pyDropOne v)) = none →
          async_select_source_body d (.str v) =
            some (.stopApp (pyLstrip (pyDropOne v)))))) := by
  refine ⟨rfl, ?_, ?_⟩
  · intro hb
    constructor
    · intro i hi
      simp [async_select_source_body, hb, hi]
    · intro hi
      simp [async_select_source_body, hb, hi]
  · intro hb
    constructor
    · intro i hi
      simp [async_select_source_body, hb, hi]
    · intro hi
      simp [async_select_source_body, hb, hi]

/-- Witness for C7: stopping a configured app via a `!` source. -/
theorem select_source_behavior_witness :
    async_select_source_body [("Netflix", "com.netflix")]
        (.str "!  Netflix") = some (.stopApp "com.netflix") :=
  ((select_source_behavior [("Netflix", "com.netflix")] "!  Netflix").2.2
    (by decide)).1 "com.netflix" (by decide)

/-- C8: `async_setup_entry` raises `ConfigEntryNotReady` exactly when
`async_connect_androidtv` returns no device, which happens exactly when
the set-up device reports itself unavailable; the error message names
the configured address; otherwise setup stores the device and a copy of
the entry options and registers the connection-close listener. -/
theorem setup_entry_not_ready (c : ConnectConfig) (adbLog : String)
    (avail : Bool) (options : List (String × String)) :
    ((∃ m, async_setup_entry c adbLog avail options = .notReady m) ↔
      (async_connect_androidtv c adbLog avail).1 = none) ∧
    ((async_connect_androidtv c adbLog avail).1 = none ↔ avail = false) ∧
    (avail = false →
      ∃ msg pre post,
        async_setup_entry c adbLog avail options = .notReady (some msg) ∧
        msg = pre ++ addressOf c ++ post) ∧
    (avail = true →
      async_setup_entry c adbLog avail options =
        .ready { available := true } options true) := by
  cases avail with
  | false =>
    have hsetup : async_setup_entry c adbLog false options =
        .notReady (some ("Could not connect to " ++ deviceNameOf c.deviceClass
          ++ " at " ++ addressOf c ++ " " ++ adbLog)) := rfl
    refine ⟨?_, ?_, ?_, ?_⟩
    · constructor
      · intro _
        rfl
      · intro _
        exact ⟨_, hsetup⟩
    · constructor
      · intro _
        rfl
      · intro _
        rfl
    · intro _
      refine ⟨_, "Could not connect to " ++ deviceNameOf c.deviceClass
          ++ " at ", " " ++ adbLog, hsetup, ?_⟩
      exact String.append_assoc _ _ _
    · intro h
      exact absurd h (by simp)
  | true =>
    have hsetup : async_setup_entry c adbLog true options =
        .ready { available := true } options true := rfl
    refine ⟨?_, ?_, ?_, ?_⟩
    · constructor
      · rintro ⟨m, hm⟩
        rw [hsetup] at hm
        cases hm
      · intro hcontra
        cases hcontra
    · constructor
      · intro hcontra
        cases hcontra
      · intro h
        exact absurd h (by simp)
    · intro h
      exact absurd h (by simp)
    · intro _
      exact hsetup

/-- Witness for C8: a concrete unavailable device yields `notReady` with
the address in the message. -/
theorem setup_entry_not_ready_witness :
    ∃ msg pre post,
      async_setup_entry exCfg "adblog" false [] = .notReady (some msg) ∧
      msg = pre ++ addressOf exCfg ++ post :=
  (setup_entry_not_ready exCfg "adblog" false []).2.2.1 rfl

/-- C9 (amended): after `_process_config`, when no two configured apps
share the same name, the name-to-id map sends every configured app name
to its configured app id (even when the name belongs to a default app);
and a default app name still maps to its default id provided the name is
not any configured app name, the default app id is not reconfigured, and
no other default app carries that name. -/
theorem process_config_app_map (APPS apps : List (String × String)) :
    (apps.Pairwise (fun p q => p.2 ≠ q.2) →
      ∀ p ∈ apps, dget (process_config_apps APPS apps).2 p.2 = some p.1) ∧
    (∀ dId n, (dId, n) ∈ APPS → n ≠ "" →
      (∀ q ∈ apps, q.2 ≠ n ∧ q.1 ≠ dId) →
      (∀ q ∈ APPS, q.2 = n → q.1 = dId) →
      dget (process_config_apps APPS apps).2 n = some dId) := by
  constructor
  · intro hnodup p hp
    show dget (apps.foldl loopIns ((dupdate APPS apps).foldl compIns []))
        p.2 = some p.1
    exact dget_foldl_loopIns_mem (by simpa using hp) hnodup
  · intro dId n hmem hne happs hAPPS
    show dget (apps.foldl loopIns ((dupdate APPS apps).foldl compIns []))
        n = some dId
    have hpres : ∀ q ∈ apps, q.2 ≠ n := fun q hq => (happs q hq).1
    rw [dget_foldl_loopIns_of_notmem hpres]
    apply dget_foldl_compIns_unique hne
    · intro p hp hpn
      have hkey : p.1 = dId :=
        dupdate_value_unique hAPPS hpres p hp hpn
      cases p with
      | mk a b =>
        simp only at hkey hpn
        rw [hkey, hpn]
    · right
      exact mem_dupdate_of_keys_ne hmem (fun q hq => (happs q hq).2)

/-- Witness for C9 (amended): a configured app name resolving to the
configured id. -/
theorem process_config_app_map_witness :
    dget (process_config_apps [("com.d", "Def")] [("com.a", "Name")]).2
        "Name" = some "com.a" :=
  (process_config_app_map [("com.d", "Def")] [("com.a", "Name")]).1
    (by simp) ("com.a", "Name") (by simp)

/-- C9 counterexample: when two configured apps share the same name the
name-to-id map cannot send both pairs to their own ids — the later pair
wins — so the claim as stated fails. -/
theorem process_config_app_map_cex :
    ¬ (∀ p ∈ [("app.a", "N"), ("app.b", "N")],
        dget (process_config_apps [] [("app.a", "N"), ("app.b", "N")]).2 p.2
          = some p.1) := by
  decide

/-- C10: `_validate_state_det_rules` returns `None` exactly when the JSON
parse fails or the parsed rules fail the validator; on success it
returns the parsed rules as a list, wrapping a non-list value into a
one-element list; and the rules options step re-displays the form with
an error instead of saving whenever `None` is returned, saving the rule
otherwise. -/
theorem validate_rules_behavior
    (parsed : Option JsonVal) (validatorOk : List JsonVal → Bool) :
    (validate_state_det_rules none validatorOk = none) ∧
    (∀ j, validatorOk (wrapAsList j) = false →
      validate_state_det_rules (some j) validatorOk = none) ∧
    (∀ j, validatorOk (wrapAsList j) = true →
      validate_state_det_rules (some j) validatorOk = some (wrapAsList j)) ∧
    (∀ xs, wrapAsList (.arr xs) = xs) ∧
    (∀ j, (∀ xs, j ≠ .arr xs) → wrapAsList j = [j]) ∧
    (∀ (rid : String) (strRule : Option String)
        (rules : List (String × List JsonVal)),
      rid ≠ "" → truthyOpt strRule = true →
      validate_state_det_rules parsed validatorOk = none →
      async_step_rules_submit (some rid) false strRule parsed validatorOk
          rules = (rules, .rulesFormWithError)) ∧
    (∀ (rid : String) (strRule : Option String)
        (rules : List (String × List JsonVal)) (r : List JsonVal),
      rid ≠ "" → truthyOpt strRule = true →
      validate_state_det_rules parsed validatorOk = some r →
      async_step_rules_submit (some rid) false strRule parsed validatorOk
          rules = (dinsert rules rid r, .backToInit)) := by
  refine ⟨rfl, ?_, ?_, ?_, ?_, ?_, ?_⟩
  · intro j hj
    simp [validate_state_det_rules, hj]
  · intro j hj
    simp [validate_state_det_rules, hj]
  · intro xs
    rfl
  · intro j hj
    cases j with
    | arr xs => exact absurd rfl (hj xs)
    | obj f => rfl
    | str s2 => rfl
    | num n => rfl
    | bool b => rfl
    | null => rfl
  · intro rid strRule rules hrid hs hval
    have h1 : truthyOpt (some rid) = true := by simp [truthyOpt, hrid]
    simp [async_step_rules_submit, h1, hs, hval]
  · intro rid strRule rules r hrid hs hval
    have h1 : truthyOpt (some rid) = true := by simp [truthyOpt, hrid]
    simp [async_step_rules_submit, h1, hs, hval]

/-- Witness for C10: a non-list JSON value wrapped and accepted, and an
invalid rule string re-displaying the form. -/
theorem validate_rules_behavior_witness :
    validate_state_det_rules (some (JsonVal.obj [])) (fun _ => true)
        = some [JsonVal.obj []] ∧
    async_step_rules_submit (some "tv.rule") false (some "x") none
        (fun _ => true) [] = ([], .rulesFormWithError) :=
  ⟨(validate_rules_behavior (some (JsonVal.obj []))
      (fun _ => true)).2.2.1 (JsonVal.obj []) rfl,
   (validate_rules_behavior none (fun _ => true)).2.2.2.2.2.1 "tv.rule"
      (some "x") [] (by decide) rfl rfl⟩

end AndroidTVCustom
